import Mathlib

/-!
Verification of the resilience core of the vibetrip repository:
the circuit breaker (src/services/circuitBreaker.ts), the token-bucket
rate limiter (src/services/rateLimiter.ts), the LRU+TTL cache
(src/services/cache.ts), the retry/timeout wrapper and the agent pipeline
(src/services/gemini.ts), and the confirmation gate (src/App.tsx).

Times are modelled in milliseconds as naturals; fractional quantities
(token counts, confidence scores, exchange rates) as rationals.
-/

namespace VibeTrip

/-! ## Circuit breaker (src/services/circuitBreaker.ts) -/

/-- `enum CircuitState` from circuitBreaker.ts. -/
inductive CircuitState
  | CLOSED
  | OPEN
  | HALF_OPEN
deriving DecidableEq, Repr

/-- `CircuitBreakerOptions` (the `name` field is used only for log strings
and is omitted). -/
structure CircuitBreakerOptions where
  failureThreshold : Nat
  successThreshold : Nat
  timeout : Nat
deriving DecidableEq, Repr

/-- The mutable fields of `class CircuitBreaker`. -/
structure CBState where
  state : CircuitState
  failureCount : Nat
  successCount : Nat
  lastFailureTime : Option Nat
  nextAttemptTime : Nat
  totalRequests : Nat
  totalFailures : Nat
  totalSuccesses : Nat
deriving DecidableEq, Repr

/-- The initial field values of a freshly constructed `CircuitBreaker`. -/
def CBState.init : CBState :=
  { state := CircuitState.CLOSED
    failureCount := 0
    successCount := 0
    lastFailureTime := none
    nextAttemptTime := 0
    totalRequests := 0
    totalFailures := 0
    totalSuccesses := 0 }

/-- `CircuitBreakerStats`, the record returned by `getStats()`. -/
structure CircuitBreakerStats where
  state : CircuitState
  failures : Nat
  successes : Nat
  lastFailureTime : Option Nat
  totalRequests : Nat
  totalFailures : Nat
  totalSuccesses : Nat
deriving DecidableEq, Repr

/-- `CircuitBreaker.getStats()`. -/
def getStats (s : CBState) : CircuitBreakerStats :=
  { state := s.state
    failures := s.failureCount
    successes := s.successCount
    lastFailureTime := s.lastFailureTime
    totalRequests := s.totalRequests
    totalFailures := s.totalFailures
    totalSuccesses := s.totalSuccesses }

/-- `CircuitBreaker.reset()`: sets the state to CLOSED and clears
`failureCount`, `successCount` and `lastFailureTime`; it does not touch
the lifetime `total*` counters. -/
def reset (s : CBState) : CBState :=
  { s with
    state := CircuitState.CLOSED
    failureCount := 0
    successCount := 0
    lastFailureTime := none }

/-- `CircuitBreaker.onSuccess()`. -/
def onSuccess (opts : CircuitBreakerOptions) (s : CBState) : CBState :=
  let s1 := { s with totalSuccesses := s.totalSuccesses + 1, failureCount := 0 }
  if s1.state = CircuitState.HALF_OPEN then
    let s2 := { s1 with successCount := s1.successCount + 1 }
    if s2.successCount ≥ opts.successThreshold then
      { s2 with state := CircuitState.CLOSED }
    else s2
  else s1

/-- `CircuitBreaker.openCircuit()`: `Date.now()` is passed in as `now`. -/
def openCircuit (opts : CircuitBreakerOptions) (now : Nat) (s : CBState) : CBState :=
  { s with state := CircuitState.OPEN, nextAttemptTime := now + opts.timeout }

/-- `CircuitBreaker.onFailure()`: `Date.now()` is passed in as `now`. -/
def onFailure (opts : CircuitBreakerOptions) (now : Nat) (s : CBState) : CBState :=
  let s1 := { s with
    totalFailures := s.totalFailures + 1
    failureCount := s.failureCount + 1
    lastFailureTime := some now }
  if s1.state = CircuitState.HALF_OPEN then
    openCircuit opts now s1
  else if s1.failureCount ≥ opts.failureThreshold then
    openCircuit opts now s1
  else s1

/-- What the wrapped promise `fn` would do if it were awaited. -/
inductive FnOutcome
  | success
  | failure
deriving DecidableEq, Repr

/-- The observable outcome of one `execute` call: `fastRejected` means the
"circuit open" error was thrown and `fn` was never invoked; `returned`
means `fn` was invoked and its value returned; `errored` means `fn` was
invoked, rejected, and the rejection was rethrown. -/
inductive ExecResult
  | fastRejected
  | returned
  | errored
deriving DecidableEq, Repr

/-- `CircuitBreaker.execute(fn)` at time `now`, given the behaviour `fn`
would have if invoked.  Returns the new breaker state and the outcome. -/
def execute (opts : CircuitBreakerOptions) (now : Nat) (fn : FnOutcome)
    (s : CBState) : CBState × ExecResult :=
  let s1 := { s with totalRequests := s.totalRequests + 1 }
  if s1.state = CircuitState.OPEN then
    if now < s1.nextAttemptTime then
      (s1, ExecResult.fastRejected)
    else
      let s2 := { s1 with state := CircuitState.HALF_OPEN, successCount := 0 }
      match fn with
      | FnOutcome.success => (onSuccess opts s2, ExecResult.returned)
      | FnOutcome.failure => (onFailure opts now s2, ExecResult.errored)
  else
    match fn with
    | FnOutcome.success => (onSuccess opts s1, ExecResult.returned)
    | FnOutcome.failure => (onFailure opts now s1, ExecResult.errored)

/-- Iterate `execute`, keeping only the state. -/
def executeN (opts : CircuitBreakerOptions) (now : Nat) (fn : FnOutcome)
    (s : CBState) : Nat → CBState
  | 0 => s
  | n + 1 => (execute opts now fn (executeN opts now fn s n)).1

/-- The options of `geminiCircuitBreaker` from circuitBreaker.ts. -/
def geminiOptions : CircuitBreakerOptions :=
  { failureThreshold := 5, successThreshold := 2, timeout := 60000 }

/-! ## Token-bucket rate limiter (src/services/rateLimiter.ts) -/

/-- `RateLimitConfig`.  Token counts and rates are rationals, matching the
fractional arithmetic of the source (`refillRate` 0.5, fractional refill). -/
structure RateLimitConfig where
  maxTokens : ℚ
  refillRate : ℚ
  windowMs : Nat
deriving DecidableEq, Repr

/-- `RateLimitBucket`. -/
structure RateLimitBucket where
  tokens : ℚ
  lastRefill : Nat
deriving DecidableEq, Repr

/-- The record returned by `RateLimiter.checkLimit`. -/
structure RateLimitResult where
  allowed : Bool
  remaining : Int
  resetIn : Int
deriving DecidableEq, Repr

/-- `RateLimiter.checkLimit(key)` at time `now`, given the bucket currently
stored for the key (`none` when the key has no bucket yet).  Returns the
bucket written back to the map and the result record. -/
def checkLimit (cfg : RateLimitConfig) (now : Nat) (stored : Option RateLimitBucket) :
    RateLimitBucket × RateLimitResult :=
  let bucket := stored.getD { tokens := cfg.maxTokens, lastRefill := now }
  let timePassed : ℚ := ((now : ℚ) - (bucket.lastRefill : ℚ)) / 1000
  let tokensToAdd : ℚ := timePassed * cfg.refillRate
  let tokens1 : ℚ := min cfg.maxTokens (bucket.tokens + tokensToAdd)
  if tokens1 ≥ 1 then
    ({ tokens := tokens1 - 1, lastRefill := now },
     { allowed := true
       remaining := ⌊tokens1 - 1⌋
       resetIn := ⌈(cfg.maxTokens - (tokens1 - 1)) / cfg.refillRate * 1000⌉ })
  else
    ({ tokens := tokens1, lastRefill := now },
     { allowed := false
       remaining := 0
       resetIn := ⌈(1 - tokens1) / cfg.refillRate * 1000⌉ })

/-- Iterate `checkLimit` on one key's bucket at a fixed time. -/
def checkLimitN (cfg : RateLimitConfig) (now : Nat) (b : RateLimitBucket) :
    Nat → RateLimitBucket
  | 0 => b
  | n + 1 => (checkLimit cfg now (some (checkLimitN cfg now b n))).1

/-- The configuration of `geminiRateLimiter` from rateLimiter.ts. -/
def geminiLimiterConfig : RateLimitConfig :=
  { maxTokens := 20, refillRate := 1, windowMs := 60000 }

/-! ## LRU + TTL cache (src/services/cache.ts) -/

/-- `CacheEntry<T>`. -/
structure CacheEntry (V : Type) where
  value : V
  expiresAt : Nat
  accessCount : Nat
  lastAccessed : Nat
deriving DecidableEq, Repr

/-- The fields of `class Cache`: the backing `Map` is a list of
key/entry pairs in JS-`Map` insertion order. -/
structure CacheState (V : Type) where
  entries : List (String × CacheEntry V)
  maxSize : Nat
  defaultTTL : Nat
deriving DecidableEq, Repr

/-- `Map.prototype.has`. -/
def mapHas (l : List (String × CacheEntry V)) (k : String) : Bool :=
  l.any (fun kv => kv.1 == k)

/-- `Map.prototype.set`: an existing key is updated in place (keeping its
insertion position); a new key is appended. -/
def mapSet (l : List (String × CacheEntry V)) (k : String) (v : CacheEntry V) :
    List (String × CacheEntry V) :=
  match l with
  | [] => [(k, v)]
  | kv :: rest => if kv.1 = k then (k, v) :: rest else kv :: mapSet rest k v

/-- `Map.prototype.delete`. -/
def mapDelete (l : List (String × CacheEntry V)) (k : String) :
    List (String × CacheEntry V) :=
  match l with
  | [] => []
  | kv :: rest => if kv.1 = k then rest else kv :: mapDelete rest k

/-- The scan loop of `Cache.evictLRU`: starting from `lruKey = null`,
`lruTime = Infinity`, keep the key of the entry with the strictly smallest
`lastAccessed` seen so far. -/
def lruScan (l : List (String × CacheEntry V)) : Option String :=
  (l.foldl
    (fun (acc : Option String × Option Nat) kv =>
      match acc.2 with
      | none => (some kv.1, some kv.2.lastAccessed)
      | some t =>
          if kv.2.lastAccessed < t then (some kv.1, some kv.2.lastAccessed) else acc)
    (none, none)).1

/-- JavaScript truthiness of a string: the empty string is falsy. -/
def stringTruthy (s : String) : Bool := s != ""

/-- `Cache.evictLRU()`: the guard `if (lruKey)` skips the deletion both when
`lruKey` is `null` (empty map) and when the selected key is the empty
string, which is falsy in JavaScript. -/
def evictLRU (l : List (String × CacheEntry V)) : List (String × CacheEntry V) :=
  match lruScan l with
  | none => l
  | some k => if stringTruthy k then mapDelete l k else l

/-- `Cache.set(key, value, ttl?)` at time `now`.  `ttl || this.defaultTTL`
is JavaScript `||`, so a `ttl` of 0 also falls back to the default. -/
def cacheSet (c : CacheState V) (now : Nat) (key : String) (value : V)
    (ttl : Option Nat) : CacheState V :=
  let entries1 :=
    if c.entries.length ≥ c.maxSize ∧ mapHas c.entries key = false then
      evictLRU c.entries
    else c.entries
  let expiresAt := now +
    (match ttl with
     | some t => if t = 0 then c.defaultTTL else t
     | none => c.defaultTTL)
  let newEntry : CacheEntry V :=
    { value := value, expiresAt := expiresAt, accessCount := 0, lastAccessed := now }
  { c with entries := mapSet entries1 key newEntry }

/-! ## Retry executor (src/services/gemini.ts, `runWithRetry`) -/

/-- `CONFIG.RETRIES`. -/
def CONFIG_RETRIES : Nat := 2

/-- `CONFIG.BACKOFF_BASE_MS`. -/
def CONFIG_BACKOFF_BASE_MS : Nat := 1000

/-- The final error message of `runWithRetry` wrapping the last
underlying error. -/
def highTrafficMessage (operationName lastErr : String) : String :=
  "We\x27re experiencing high traffic. " ++ operationName ++
    " failed after multiple attempts. (" ++ lastErr ++ ")"

/-- The observable behaviour of one `runWithRetry` invocation: how many
times `fn` was invoked, the backoff sleeps performed (in order), and the
final settled value. -/
structure RetryTrace (T : Type) where
  calls : Nat
  sleeps : List Nat
  result : Except String T
deriving Repr

/-- The `for (attempt = 1; attempt <= retries + 1; ...)` loop of
`runWithRetry`.  `fn attempt` is the settled outcome of racing `fn()`
against the per-attempt timeout (a timeout rejection is just one kind of
`Except.error`).  `remaining` is `retries + 1 - attempt`, so
`remaining = 0` exactly when `attempt > retries` (the last attempt). -/
def retryLoop (operationName : String) (backoffBase : Nat)
    (fn : Nat → Except String T) : Nat → Nat → RetryTrace T
  | attempt, 0 =>
    match fn attempt with
    | Except.ok v => { calls := 1, sleeps := [], result := Except.ok v }
    | Except.error e =>
        { calls := 1, sleeps := []
          result := Except.error (highTrafficMessage operationName e) }
  | attempt, remaining + 1 =>
    match fn attempt with
    | Except.ok v => { calls := 1, sleeps := [], result := Except.ok v }
    | Except.error _ =>
        let backoff := backoffBase * 2 ^ (attempt - 1)
        let rest := retryLoop operationName backoffBase fn (attempt + 1) remaining
        { calls := rest.calls + 1, sleeps := backoff :: rest.sleeps
          result := rest.result }

/-- `runWithRetry(operationName, fn, retries, timeoutMs)`.  The timeout
is already folded into each attempt's outcome `fn attempt`. -/
def runWithRetry (operationName : String) (retries backoffBase : Nat)
    (fn : Nat → Except String T) : RetryTrace T :=
  retryLoop operationName backoffBase fn 1 retries

/-! ## Domain types (src/types.ts) -/

/-- `Coordinates`. -/
structure Coordinates where
  lat : ℚ
  lng : ℚ
deriving DecidableEq, Repr

/-- The `type` field of `Place`. -/
inductive PlaceType
  | Activity
  | Food
  | Hotel
  | Landmark
deriving DecidableEq, Repr

/-- `Place`. -/
structure Place where
  name : String
  description : String
  type : PlaceType
  coordinates : Option Coordinates
  estimatedCost : String
  currencyCode : Option String
  bookingUrl : Option String
  imageUrl : Option String
  rating : Option ℚ
  address : Option String
deriving DecidableEq, Repr

/-- `CurrencyInfo`. -/
structure CurrencyInfo where
  code : String
  symbol : String
  rateToUSD : ℚ
deriving DecidableEq, Repr

/-- `Travelers`. -/
structure Travelers where
  adults : Nat
  children : Nat
  seniors : Nat
deriving DecidableEq, Repr

/-- The `budgetLevel` field of `TripIntent`. -/
inductive BudgetLevel
  | Budget
  | Moderate
  | Luxury
deriving DecidableEq, Repr

/-- `TripIntent`.  `currencyRates` is a JS object, modelled as a list of
key/value pairs in key-insertion order (`Object.keys` order). -/
structure TripIntent where
  destination : String
  startDate : Option String
  endDate : Option String
  durationDays : Nat
  budgetLevel : BudgetLevel
  travelers : Travelers
  vibes : List String
  constraints : List String
  confidenceScore : ℚ
  assumptions : List String
  currencyRates : List (String × CurrencyInfo)
deriving DecidableEq, Repr

/-- `Flight`. -/
structure Flight where
  id : String
  airline : String
  flightNumber : String
  departureTime : String
  arrivalTime : String
  origin : String
  destination : String
  price : String
  bookingUrl : Option String
deriving DecidableEq, Repr

/-- `DiscoveryResult`. -/
structure DiscoveryResult where
  activities : List Place
  dining : List Place
  accommodations : List Place
  flights : Option (List Flight)
  confidenceScore : ℚ
  assumptions : List String
deriving DecidableEq, Repr

/-- `DayPlan`. -/
structure DayPlan where
  day : Nat
  title : String
  morning : List Place
  afternoon : List Place
  evening : List Place
  totalEstimatedCost : ℚ
deriving DecidableEq, Repr

/-- `PlanReasoning` (`vibeAnalysis` pairs a vibe with its matched
activities). -/
structure PlanReasoning where
  vibeAnalysis : List (String × List String)
  constraintLog : List String
  selectedAssumptions : List String
deriving DecidableEq, Repr

/-- `Itinerary`. -/
structure Itinerary where
  id : String
  title : String
  description : String
  tags : List String
  totalEstimatedCost : ℚ
  currency : String
  days : List DayPlan
  reasoning : Option PlanReasoning
deriving DecidableEq, Repr

/-- `OptimizationResult`. -/
structure OptimizationResult where
  itineraries : List Itinerary
  confidenceScore : ℚ
  assumptions : List String
deriving DecidableEq, Repr

/-! ## Fallback generator (src/services/gemini.ts, `generateFallbackItinerary`) -/

/-- `Object.keys(intent.currencyRates)[0] || 'USD'`: the first key of the
rates object, falling back to `"USD"` when there is none (or when the
first key is the falsy empty string). -/
def primaryCurrencyCode (intent : TripIntent) : String :=
  match intent.currencyRates.head? with
  | some kv => if stringTruthy kv.1 then kv.1 else "USD"
  | none => "USD"

/-- One iteration of the day loop of `generateFallbackItinerary`
(`i` runs from 1 to `durationDays`). -/
def fallbackDayPlan (intent : TripIntent) (discovery : DiscoveryResult)
    (i : Nat) : DayPlan :=
  let activities := discovery.activities
  let dining := discovery.dining
  let morning : List Place :=
    if h : 0 < activities.length then
      [activities.get ⟨(i - 1) % activities.length, Nat.mod_lt _ h⟩]
    else []
  let afternoon : List Place :=
    if h : 1 < activities.length then
      [activities.get ⟨(i + activities.length / 2) % activities.length,
        Nat.mod_lt _ (Nat.lt_of_le_of_lt (Nat.zero_le 1) h)⟩]
    else []
  let evening : List Place :=
    if h : 0 < dining.length then
      [dining.get ⟨(i - 1) % dining.length, Nat.mod_lt _ h⟩]
    else []
  { day := i
    title := "Day " ++ toString i ++ ": Highlights of " ++ intent.destination
    morning := morning
    afternoon := afternoon
    evening := evening
    totalEstimatedCost := 0 }

/-- `generateFallbackItinerary(intent, discovery)`; `now` is the
`Date.now()` used only in the itinerary's `id`. -/
def generateFallbackItinerary (intent : TripIntent) (discovery : DiscoveryResult)
    (now : Nat) : OptimizationResult :=
  let days : List DayPlan :=
    (List.range intent.durationDays).map (fun j => fallbackDayPlan intent discovery (j + 1))
  let fallbackItinerary : Itinerary :=
    { id := "fallback_" ++ toString now
      title := "Essential Trip Plan (Auto-Generated)"
      description := "A streamlined itinerary based on your top interests. (Generated via fallback logic due to high demand)"
      tags := ["Simple", "Highlights"]
      totalEstimatedCost := 0
      currency := primaryCurrencyCode intent
      days := days
      reasoning := some
        { vibeAnalysis := []
          constraintLog := ["Optimization service was busy, applied standard distribution logic."]
          selectedAssumptions := ["Standard pacing applied", "Selected top rated candidates"] } }
  { itineraries := [fallbackItinerary]
    confidenceScore := 1 / 5
    assumptions := ["System fallback: Simple logic used due to AI timeout."] }

/-! ## Agent error propagation (src/services/gemini.ts) -/

/-- JavaScript `String.prototype.includes`, for the non-empty patterns
used in `parseIntentAgent`'s catch clause. -/
def jsIncludes (s pat : String) : Bool := (s.splitOn pat).length != 1

/-- The friendly message `parseIntentAgent` throws for validation / JSON
failures. -/
def intentClarifyMessage : String :=
  "I couldn\x27t quite catch the details of your trip. Could you please clarify where you want to go and for how long?"

/-- `parseIntentAgent`: the retried call either returns the validated
intent or throws; the catch clause rewraps validation/JSON errors and
rethrows everything else.  `fn attempt` is the settled outcome of the
attempt (backend call + JSON parse + Zod validation + currency
transform). -/
def parseIntentAgent (fn : Nat → Except String TripIntent) : Except String TripIntent :=
  match (runWithRetry "IntentParser" CONFIG_RETRIES CONFIG_BACKOFF_BASE_MS fn).result with
  | Except.ok r => Except.ok r
  | Except.error msg =>
      if jsIncludes msg "Validation Error" || jsIncludes msg "JSON" then
        Except.error intentClarifyMessage
      else Except.error msg

/-- `discoveryAgent`: on success the candidates are enriched with cost
estimates (`enrich`, opaque here); a terminal retry failure is rethrown. -/
def discoveryAgent (enrich : DiscoveryResult → DiscoveryResult)
    (fn : Nat → Except String DiscoveryResult) : Except String DiscoveryResult :=
  match (runWithRetry "DiscoveryAgent" CONFIG_RETRIES CONFIG_BACKOFF_BASE_MS fn).result with
  | Except.ok r => Except.ok (enrich r)
  | Except.error e => Except.error e

/-- `optimizationAgent`: any terminal failure of the retried call is
caught and replaced by the deterministic fallback, so the function always
returns a result. -/
def optimizationAgent (intent : TripIntent) (candidates : DiscoveryResult) (now : Nat)
    (fn : Nat → Except String OptimizationResult) : OptimizationResult :=
  match (runWithRetry "OptimizationAgent" CONFIG_RETRIES CONFIG_BACKOFF_BASE_MS fn).result with
  | Except.ok r => r
  | Except.error _ => generateFallbackItinerary intent candidates now

/-- `refineItineraryAgent`: a terminal retry failure is rethrown to the
caller. -/
def refineItineraryAgent (fn : Nat → Except String Itinerary) : Except String Itinerary :=
  (runWithRetry "RefineItineraryAgent" CONFIG_RETRIES CONFIG_BACKOFF_BASE_MS fn).result

/-! ## Confirmation gate (src/App.tsx) -/

/-- `enum AgentStatus` (types.ts). -/
inductive AgentStatus
  | IDLE
  | PARSING_INTENT
  | REVIEW_INTENT
  | DISCOVERY
  | REVIEW_DISCOVERY
  | OPTIMIZING
  | RENDERING
  | COMPLETE
  | ERROR
deriving DecidableEq, Repr

/-- `shouldRequireConfirmation(score, assumptions)` from App.tsx. -/
def shouldRequireConfirmation (score : ℚ) (assumptions : List String) : Bool :=
  decide (score < 7 / 10) || decide (assumptions.length > 0)

/-- The dispatch after the Intent stage in `handleSendMessage`: pause in
`REVIEW_INTENT` or auto-advance into `proceedToDiscovery` (which sets the
status to `DISCOVERY`). -/
def intentGate (parsedIntent : TripIntent) : AgentStatus :=
  if shouldRequireConfirmation parsedIntent.confidenceScore parsedIntent.assumptions then
    AgentStatus.REVIEW_INTENT
  else
    AgentStatus.DISCOVERY

/-- The dispatch after the Discovery stage in `proceedToDiscovery`: pause
in `REVIEW_DISCOVERY` or auto-advance into `proceedToOptimization` (which
sets the status to `OPTIMIZING`). -/
def discoveryGate (result : DiscoveryResult) : AgentStatus :=
  if shouldRequireConfirmation result.confidenceScore result.assumptions then
    AgentStatus.REVIEW_DISCOVERY
  else
    AgentStatus.OPTIMIZING

/-! ## Sample values used to instantiate the theorems -/

/-- A concrete place. -/
def samplePlace (n : String) : Place :=
  { name := n
    description := "a place"
    type := PlaceType.Activity
    coordinates := none
    estimatedCost := "$10"
    currencyCode := none
    bookingUrl := none
    imageUrl := none
    rating := none
    address := none }

/-- A concrete trip intent. -/
def sampleIntent : TripIntent :=
  { destination := "Kyoto"
    startDate := none
    endDate := none
    durationDays := 3
    budgetLevel := BudgetLevel.Moderate
    travelers := { adults := 2, children := 0, seniors := 0 }
    vibes := ["culture"]
    constraints := []
    confidenceScore := 9 / 10
    assumptions := []
    currencyRates := [("JPY", { code := "JPY", symbol := "Y", rateToUSD := 150 })] }

/-- A concrete discovery result with 3 activities and 2 dining entries. -/
def sampleDiscovery : DiscoveryResult :=
  { activities := [samplePlace "A", samplePlace "B", samplePlace "C"]
    dining := [samplePlace "D1", samplePlace "D2"]
    accommodations := []
    flights := none
    confidenceScore := 8 / 10
    assumptions := [] }

/-- The breaker state after five consecutive failing calls at time 0,
starting from the initial state, under `geminiOptions`. -/
def sOpen5 : CBState := executeN geminiOptions 0 FnOutcome.failure CBState.init 5

/-- A half-open breaker state with one accumulated success
(fewer than `geminiOptions.successThreshold = 2`). -/
def sHalfOpen : CBState :=
  { state := CircuitState.HALF_OPEN
    failureCount := 0
    successCount := 1
    lastFailureTime := some 0
    nextAttemptTime := 60000
    totalRequests := 7
    totalFailures := 3
    totalSuccesses := 2 }

/-- The breaker state after one successful call from the initial state
(so `totalRequests = 1`). -/
def sOneRequest : CBState := (execute geminiOptions 0 FnOutcome.success CBState.init).1

/-- An empty cache with `maxSize = 1`. -/
def cacheEmpty1 : CacheState Nat :=
  { entries := [], maxSize := 1, defaultTTL := 300000 }

/-- The cache after `set("", 0)`: one entry, stored under the
empty-string key. -/
def cacheWithEmptyKey : CacheState Nat := cacheSet cacheEmpty1 0 "" 0 none

/-- The cache after a further `set("x", 1)` while at capacity. -/
def cacheAfterSecondSet : CacheState Nat := cacheSet cacheWithEmptyKey 1 "x" 1 none

/-- `sampleIntent` with `confidenceScore = 0.5`. -/
def intentHalf : TripIntent := { sampleIntent with confidenceScore := 1 / 2 }

/-- `sampleIntent` with `confidenceScore = 0.95` and no assumptions. -/
def intentHigh : TripIntent :=
  { sampleIntent with confidenceScore := 19 / 20, assumptions := [] }

/-- `sampleDiscovery` with `confidenceScore = 0.5`. -/
def discoveryHalf : DiscoveryResult := { sampleDiscovery with confidenceScore := 1 / 2 }

/-- `sampleDiscovery` with `confidenceScore = 0.95` and no assumptions. -/
def discoveryHigh : DiscoveryResult :=
  { sampleDiscovery with confidenceScore := 19 / 20, assumptions := [] }

/-! # Theorems -/

/-- **C1.** In the OPEN state with `now < nextAttemptAllowedAt`, `execute`
rejects with the circuit-open error without invoking the wrapped `fn`
(the state changes only by counting the request); and concretely, with
`failureThreshold = 5`, five consecutive failing calls in CLOSED move the
breaker to OPEN, and a 6th call within `timeoutMs` is fast-rejected
without any call to `fn`. -/
theorem cb_open_fast_rejects (opts : CircuitBreakerOptions) (s : CBState)
    (now : Nat) (fn : FnOutcome)
    (hs : s.state = CircuitState.OPEN) (hlt : now < s.nextAttemptTime) :
    execute opts now fn s =
      ({ s with totalRequests := s.totalRequests + 1 }, ExecResult.fastRejected)
    ∧ (executeN geminiOptions 0 FnOutcome.failure CBState.init 5).state = CircuitState.OPEN
    ∧ (execute geminiOptions 59999 FnOutcome.failure
        (executeN geminiOptions 0 FnOutcome.failure CBState.init 5)).2 = ExecResult.fastRejected := by
  refine ⟨?_, by decide, by decide⟩
  simp [execute, hs, hlt]

/-- Witness for C1 at `geminiOptions`, the state reached by five failures,
and `now = 30000`. -/
theorem cb_open_fast_rejects_witness :
    execute geminiOptions 30000 FnOutcome.failure sOpen5 =
      ({ sOpen5 with totalRequests := sOpen5.totalRequests + 1 }, ExecResult.fastRejected)
    ∧ (executeN geminiOptions 0 FnOutcome.failure CBState.init 5).state = CircuitState.OPEN
    ∧ (execute geminiOptions 59999 FnOutcome.failure
        (executeN geminiOptions 0 FnOutcome.failure CBState.init 5)).2 = ExecResult.fastRejected :=
  cb_open_fast_rejects geminiOptions sOpen5 30000 FnOutcome.failure (by decide) (by decide)

/-- **C7.** From HALF_OPEN, a single failure of the wrapped call (whatever
`successThreshold` is and however many successes were accumulated)
transitions the breaker back to OPEN and resets the timeout window to
`nextAttemptAllowedAt = now + timeoutMs`. -/
theorem cb_half_open_single_failure_reopens (opts : CircuitBreakerOptions)
    (s : CBState) (now : Nat) (hs : s.state = CircuitState.HALF_OPEN) :
    (execute opts now FnOutcome.failure s).2 = ExecResult.errored
    ∧ (execute opts now FnOutcome.failure s).1.state = CircuitState.OPEN
    ∧ (execute opts now FnOutcome.failure s).1.nextAttemptTime = now + opts.timeout := by
  simp [execute, hs, onFailure, openCircuit]

/-- Witness for C7: a half-open breaker with one prior success under
`successThreshold = 2` reopens on a single failure at time 70000. -/
theorem cb_half_open_single_failure_reopens_witness :
    (execute geminiOptions 70000 FnOutcome.failure sHalfOpen).2 = ExecResult.errored
    ∧ (execute geminiOptions 70000 FnOutcome.failure sHalfOpen).1.state = CircuitState.OPEN
    ∧ (execute geminiOptions 70000 FnOutcome.failure sHalfOpen).1.nextAttemptTime
        = 70000 + geminiOptions.timeout :=
  cb_half_open_single_failure_reopens geminiOptions sHalfOpen 70000 (by decide)

/-- **C9 counterexample.** `reset()` does not zero the lifetime counters:
after one request, resetting leaves `totalRequests` reported by
`getStats` at 1, not 0. -/
theorem cb_reset_lifetime_counter_cex :
    (getStats (reset sOneRequest)).totalRequests ≠ 0 := by decide

/-- **C9 (amended).** `reset()` forces the state to CLOSED and clears the
rolling counters (`failureCount`, `successCount`, `lastFailureTime`), but
leaves the lifetime counters `totalRequests`, `totalFailures` and
`totalSuccesses` reported by `getStats` unchanged. -/
theorem cb_reset_amended (s : CBState) :
    getStats (reset s) =
      { state := CircuitState.CLOSED
        failures := 0
        successes := 0
        lastFailureTime := none
        totalRequests := s.totalRequests
        totalFailures := s.totalFailures
        totalSuccesses := s.totalSuccesses } := rfl

/-- **C10.** A fast-rejected call in the OPEN state increments
`totalRequests` by exactly 1 and leaves every other field of the breaker
(state, failure/success counters, lifetime failure/success totals,
`lastFailureTime`, `nextAttemptAllowedAt`) unchanged. -/
theorem cb_fast_reject_frame (opts : CircuitBreakerOptions) (s : CBState)
    (now : Nat) (fn : FnOutcome)
    (hs : s.state = CircuitState.OPEN) (hlt : now < s.nextAttemptTime) :
    (execute opts now fn s).2 = ExecResult.fastRejected
    ∧ (execute opts now fn s).1.totalRequests = s.totalRequests + 1
    ∧ (execute opts now fn s).1.state = s.state
    ∧ (execute opts now fn s).1.failureCount = s.failureCount
    ∧ (execute opts now fn s).1.successCount = s.successCount
    ∧ (execute opts now fn s).1.totalFailures = s.totalFailures
    ∧ (execute opts now fn s).1.totalSuccesses = s.totalSuccesses
    ∧ (execute opts now fn s).1.lastFailureTime = s.lastFailureTime
    ∧ (execute opts now fn s).1.nextAttemptTime = s.nextAttemptTime := by
  simp [execute, hs, hlt]

/-- A `checkLimit` call with no elapsed time (`lastRefill = now`) and at
least one token refills nothing and consumes exactly one token. -/
theorem checkLimit_same_time (cfg : RateLimitConfig) (now : Nat) (b : RateLimitBucket)
    (hb : b.lastRefill = now) (hle : b.tokens ≤ cfg.maxTokens) (h1 : 1 ≤ b.tokens) :
    checkLimit cfg now (some b) =
      ({ tokens := b.tokens - 1, lastRefill := now },
       { allowed := true
         remaining := ⌊b.tokens - 1⌋
         resetIn := ⌈(cfg.maxTokens - (b.tokens - 1)) / cfg.refillRate * 1000⌉ }) := by
  have h0 : ((now : ℚ) - (b.lastRefill : ℚ)) / 1000 * cfg.refillRate = 0 := by
    rw [hb]; ring
  simp only [checkLimit, Option.getD_some]
  rw [h0, add_zero, min_eq_right hle, if_pos h1]

/-- Iterating admitted no-elapsed-time calls decrements the token count by
one per call. -/
theorem checkLimitN_spec (cfg : RateLimitConfig) (now : Nat) (b : RateLimitBucket)
    (hb : b.lastRefill = now) (hle : b.tokens ≤ cfg.maxTokens) (n : ℕ)
    (hn : (n : ℚ) ≤ b.tokens) :
    (checkLimitN cfg now b n).tokens = b.tokens - n
    ∧ (checkLimitN cfg now b n).lastRefill = now
    ∧ ∀ k, k < n → (checkLimit cfg now (some (checkLimitN cfg now b k))).2.allowed = true := by
  induction n with
  | zero =>
      refine ⟨by simp [checkLimitN], by simp [checkLimitN, hb], ?_⟩
      intro k hk
      exact absurd hk (Nat.not_lt_zero k)
  | succ n ih =>
      have hn' : (n : ℚ) ≤ b.tokens := by
        refine le_trans ?_ hn
        push_cast
        linarith
      obtain ⟨ht, hl, ha⟩ := ih hn'
      have hcast : ((n : ℚ)) + 1 ≤ b.tokens := by push_cast at hn; linarith
      have hmax_n : (checkLimitN cfg now b n).tokens ≤ cfg.maxTokens := by
        rw [ht]
        have h0n : (0 : ℚ) ≤ (n : ℚ) := Nat.cast_nonneg n
        linarith
      have h1 : 1 ≤ (checkLimitN cfg now b n).tokens := by
        rw [ht]; linarith
      have hstep := checkLimit_same_time cfg now (checkLimitN cfg now b n) hl hmax_n h1
      refine ⟨?_, ?_, ?_⟩
      · show (checkLimit cfg now (some (checkLimitN cfg now b n))).1.tokens = _
        rw [hstep, ht]
        push_cast
        ring
      · show (checkLimit cfg now (some (checkLimitN cfg now b n))).1.lastRefill = _
        rw [hstep]
      · intro k hk
        rcases Nat.lt_succ_iff_lt_or_eq.mp hk with h | h
        · exact ha k h
        · subst h
          rw [hstep]

/-- One `checkLimit` call preserves `0 ≤ tokens ≤ maxTokens`. -/
theorem checkLimit_range (cfg : RateLimitConfig) (now : Nat) (stored : Option RateLimitBucket)
    (hmax : 0 ≤ cfg.maxTokens) (hrate : 0 ≤ cfg.refillRate)
    (hstored : ∀ b, stored = some b → 0 ≤ b.tokens ∧ b.lastRefill ≤ now) :
    0 ≤ (checkLimit cfg now stored).1.tokens
    ∧ (checkLimit cfg now stored).1.tokens ≤ cfg.maxTokens := by
  cases stored with
  | none =>
      have h0 : ((now : ℚ) - (now : ℚ)) / 1000 * cfg.refillRate = 0 := by ring
      simp only [checkLimit, Option.getD_none]
      rw [h0, add_zero, min_self]
      by_cases h : (1 : ℚ) ≤ cfg.maxTokens
      · rw [if_pos h]
        refine ⟨?_, ?_⟩ <;> dsimp only <;> linarith
      · rw [if_neg h]
        exact ⟨hmax, le_refl _⟩
  | some b =>
      obtain ⟨hb0, hbl⟩ := hstored b rfl
      have hadd : 0 ≤ ((now : ℚ) - (b.lastRefill : ℚ)) / 1000 * cfg.refillRate := by
        apply mul_nonneg _ hrate
        apply div_nonneg _ (by norm_num)
        have hc : (b.lastRefill : ℚ) ≤ (now : ℚ) := by exact_mod_cast hbl
        linarith
      have ht1le : min cfg.maxTokens
          (b.tokens + ((now : ℚ) - (b.lastRefill : ℚ)) / 1000 * cfg.refillRate)
          ≤ cfg.maxTokens := min_le_left _ _
      have ht10 : 0 ≤ min cfg.maxTokens
          (b.tokens + ((now : ℚ) - (b.lastRefill : ℚ)) / 1000 * cfg.refillRate) :=
        le_min hmax (by linarith)
      simp only [checkLimit, Option.getD_some]
      by_cases h : (1 : ℚ) ≤ min cfg.maxTokens
          (b.tokens + ((now : ℚ) - (b.lastRefill : ℚ)) / 1000 * cfg.refillRate)
      · rw [if_pos h]
        refine ⟨?_, ?_⟩ <;> dsimp only <;> linarith
      · rw [if_neg h]
        exact ⟨ht10, ht1le⟩

/-- After waiting at least `maxTokens / refillRate` seconds, a `checkLimit`
call finds a full bucket, admits, and leaves `maxTokens - 1` tokens. -/
theorem checkLimit_full_refill (cfg : RateLimitConfig) (now : Nat) (b : RateLimitBucket)
    (m : ℕ) (hm : cfg.maxTokens = (m : ℚ)) (hm1 : 1 ≤ m) (hrate : 0 < cfg.refillRate)
    (hb0 : 0 ≤ b.tokens)
    (hwait : ((m : ℚ) / cfg.refillRate) * 1000 ≤ (now : ℚ) - (b.lastRefill : ℚ)) :
    (checkLimit cfg now (some b)).2.allowed = true
    ∧ (checkLimit cfg now (some b)).2.remaining = (m : ℤ) - 1
    ∧ (checkLimit cfg now (some b)).1.tokens = (m : ℚ) - 1 := by
  have hrne : cfg.refillRate ≠ 0 := ne_of_gt hrate
  have hadd : (m : ℚ) ≤ ((now : ℚ) - (b.lastRefill : ℚ)) / 1000 * cfg.refillRate := by
    have h1 := mul_le_mul_of_nonneg_right hwait (le_of_lt hrate)
    rw [mul_comm ((m : ℚ) / cfg.refillRate) 1000, mul_assoc,
      div_mul_cancel₀ (m : ℚ) hrne] at h1
    rw [div_mul_eq_mul_div, le_div_iff₀ (by norm_num : (0 : ℚ) < 1000)]
    linarith
  have hmin : min cfg.maxTokens
      (b.tokens + ((now : ℚ) - (b.lastRefill : ℚ)) / 1000 * cfg.refillRate)
      = cfg.maxTokens := min_eq_left (by rw [hm]; linarith)
  have hone : (1 : ℚ) ≤ cfg.maxTokens := by
    rw [hm]; exact_mod_cast hm1
  simp only [checkLimit, Option.getD_some]
  rw [hmin, if_pos hone, hm]
  refine ⟨rfl, ?_, rfl⟩
  show ⌊(m : ℚ) - 1⌋ = (m : ℤ) - 1
  rw [show ((m : ℚ) - 1) = (((m : ℤ) - 1 : ℤ) : ℚ) by push_cast; ring, Int.floor_intCast]

/-- **C5.** Token bucket behaviour of `checkLimit`: (1) `n` consecutive
admitted calls with no elapsed time decrease the bucket's tokens by
exactly `n` (and each such call is admitted while at least one token
remains); (2) every call preserves `0 ≤ tokens ≤ maxTokens`; (3) after
waiting `maxTokens / refillRate` seconds with no requests, a fresh check
admits and reports `remaining = maxTokens - 1` after consuming one
token. -/
theorem rate_limiter_token_bucket :
    (∀ (cfg : RateLimitConfig) (now : Nat) (b : RateLimitBucket) (n : ℕ),
      b.lastRefill = now → b.tokens ≤ cfg.maxTokens → (n : ℚ) ≤ b.tokens →
        (checkLimitN cfg now b n).tokens = b.tokens - n
        ∧ ∀ k, k < n →
            (checkLimit cfg now (some (checkLimitN cfg now b k))).2.allowed = true)
    ∧ (∀ (cfg : RateLimitConfig) (now : Nat) (stored : Option RateLimitBucket),
        0 ≤ cfg.maxTokens → 0 ≤ cfg.refillRate →
        (∀ b, stored = some b → 0 ≤ b.tokens ∧ b.lastRefill ≤ now) →
          0 ≤ (checkLimit cfg now stored).1.tokens
          ∧ (checkLimit cfg now stored).1.tokens ≤ cfg.maxTokens)
    ∧ (∀ (cfg : RateLimitConfig) (now : Nat) (b : RateLimitBucket) (m : ℕ),
        cfg.maxTokens = (m : ℚ) → 1 ≤ m → 0 < cfg.refillRate → 0 ≤ b.tokens →
        ((m : ℚ) / cfg.refillRate) * 1000 ≤ (now : ℚ) - (b.lastRefill : ℚ) →
          (checkLimit cfg now (some b)).2.allowed = true
          ∧ (checkLimit cfg now (some b)).2.remaining = (m : ℤ) - 1
          ∧ (checkLimit cfg now (some b)).1.tokens = (m : ℚ) - 1) := by
  refine ⟨?_, ?_, ?_⟩
  · intro cfg now b n hb hle hn
    obtain ⟨ht, _, ha⟩ := checkLimitN_spec cfg now b hb hle n hn
    exact ⟨ht, ha⟩
  · intro cfg now stored hmax hrate hstored
    exact checkLimit_range cfg now stored hmax hrate hstored
  · intro cfg now b m hm hm1 hrate hb0 hwait
    exact checkLimit_full_refill cfg now b m hm hm1 hrate hb0 hwait

/-- Witness for C5 at the `geminiRateLimiter` configuration
(`maxTokens = 20`, `refillRate = 1`/s): five no-elapsed-time calls leave
15 tokens; one call preserves the range; a call after 20 seconds of idle
time admits with `remaining = 19`. -/
theorem rate_limiter_token_bucket_witness :
    ((checkLimitN geminiLimiterConfig 1000 { tokens := 20, lastRefill := 1000 } 5).tokens
        = 20 - ((5 : ℕ) : ℚ))
    ∧ (0 ≤ (checkLimit geminiLimiterConfig 1000
          (some { tokens := 20, lastRefill := 1000 })).1.tokens
       ∧ (checkLimit geminiLimiterConfig 1000
          (some { tokens := 20, lastRefill := 1000 })).1.tokens
            ≤ geminiLimiterConfig.maxTokens)
    ∧ ((checkLimit geminiLimiterConfig 21000
          (some { tokens := 0, lastRefill := 1000 })).2.allowed = true
       ∧ (checkLimit geminiLimiterConfig 21000
          (some { tokens := 0, lastRefill := 1000 })).2.remaining = ((20 : ℕ) : ℤ) - 1
       ∧ (checkLimit geminiLimiterConfig 21000
          (some { tokens := 0, lastRefill := 1000 })).1.tokens = ((20 : ℕ) : ℚ) - 1) := by
  refine ⟨?_, ?_, ?_⟩
  · exact (rate_limiter_token_bucket.1 geminiLimiterConfig 1000
      { tokens := 20, lastRefill := 1000 } 5 rfl (by norm_num [geminiLimiterConfig])
      (by norm_num)).1
  · exact rate_limiter_token_bucket.2.1 geminiLimiterConfig 1000
      (some { tokens := 20, lastRefill := 1000 })
      (by norm_num [geminiLimiterConfig]) (by norm_num [geminiLimiterConfig])
      (fun b hb => by cases hb; exact ⟨by norm_num, by norm_num⟩)
  · exact rate_limiter_token_bucket.2.2 geminiLimiterConfig 21000
      { tokens := 0, lastRefill := 1000 } 20 (by norm_num [geminiLimiterConfig])
      (by norm_num) (by norm_num [geminiLimiterConfig]) (by norm_num)
      (by norm_num [geminiLimiterConfig])

/-- Witness for C10 at `geminiOptions`, the five-failure OPEN state, and
`now = 10000`. -/
theorem cb_fast_reject_frame_witness :
    (execute geminiOptions 10000 FnOutcome.success sOpen5).2 = ExecResult.fastRejected
    ∧ (execute geminiOptions 10000 FnOutcome.success sOpen5).1.totalRequests
        = sOpen5.totalRequests + 1
    ∧ (execute geminiOptions 10000 FnOutcome.success sOpen5).1.state = sOpen5.state
    ∧ (execute geminiOptions 10000 FnOutcome.success sOpen5).1.failureCount = sOpen5.failureCount
    ∧ (execute geminiOptions 10000 FnOutcome.success sOpen5).1.successCount = sOpen5.successCount
    ∧ (execute geminiOptions 10000 FnOutcome.success sOpen5).1.totalFailures = sOpen5.totalFailures
    ∧ (execute geminiOptions 10000 FnOutcome.success sOpen5).1.totalSuccesses
        = sOpen5.totalSuccesses
    ∧ (execute geminiOptions 10000 FnOutcome.success sOpen5).1.lastFailureTime
        = sOpen5.lastFailureTime
    ∧ (execute geminiOptions 10000 FnOutcome.success sOpen5).1.nextAttemptTime
        = sOpen5.nextAttemptTime :=
  cb_fast_reject_frame geminiOptions sOpen5 10000 FnOutcome.success (by decide) (by decide)

/-- **C6 (bug demonstration).** With `maxSize = 1`, after `set("", 0)` the
cache is at capacity; a further `set("x", 1)` is required to evict the
LRU entry first, but `evictLRU`'s `if (lruKey)` guard treats the selected
empty-string key as falsy and skips the eviction, so the cache size
reaches 2 > `maxSize`. -/
theorem cache_set_exceeds_maxSize :
    cacheWithEmptyKey.entries.length = 1
    ∧ cacheWithEmptyKey.maxSize = 1
    ∧ cacheAfterSecondSet.entries.length = 2
    ∧ cacheAfterSecondSet.maxSize = 1 := by decide

/-- **C2.** For an always-rejecting operation, `runWithRetry` with
`maxRetries = 2` invokes `fn` exactly 3 times, sleeps `backoffBaseMs` and
then `2 × backoffBaseMs` (no sleep after the last attempt, no jitter),
and finally rejects with the "high traffic" message wrapping the
operation name and the last underlying error's message. -/
theorem runWithRetry_exhaustion (T : Type) (operationName : String)
    (backoffBase : Nat) (errs : Nat → String) :
    runWithRetry (T := T) operationName 2 backoffBase
        (fun i => Except.error (errs i)) =
      { calls := 3
        sleeps := [backoffBase, 2 * backoffBase]
        result := Except.error (highTrafficMessage operationName (errs 3)) } := by
  simp [runWithRetry, retryLoop, Nat.mul_comm]

/-- **C3.** Once Discovery has succeeded, a terminal failure of the
retried Optimization call never propagates: `optimizationAgent` returns
the deterministic fallback instead; whereas terminal failures of the
Refine, Discovery and Intent stages propagate upward as rejections. -/
theorem optimization_fallback_policy :
    (∀ (intent : TripIntent) (cands : DiscoveryResult) (now : Nat)
        (fn : Nat → Except String OptimizationResult) (e : String),
      (runWithRetry "OptimizationAgent" CONFIG_RETRIES CONFIG_BACKOFF_BASE_MS fn).result
          = Except.error e →
      optimizationAgent intent cands now fn = generateFallbackItinerary intent cands now)
    ∧ (∀ (fn : Nat → Except String Itinerary) (e : String),
        (runWithRetry "RefineItineraryAgent" CONFIG_RETRIES CONFIG_BACKOFF_BASE_MS fn).result
            = Except.error e →
        refineItineraryAgent fn = Except.error e)
    ∧ (∀ (enrich : DiscoveryResult → DiscoveryResult)
        (fn : Nat → Except String DiscoveryResult) (e : String),
        (runWithRetry "DiscoveryAgent" CONFIG_RETRIES CONFIG_BACKOFF_BASE_MS fn).result
            = Except.error e →
        discoveryAgent enrich fn = Except.error e)
    ∧ (∀ (fn : Nat → Except String TripIntent) (e : String),
        (runWithRetry "IntentParser" CONFIG_RETRIES CONFIG_BACKOFF_BASE_MS fn).result
            = Except.error e →
        ∃ msg, parseIntentAgent fn = Except.error msg) := by
  refine ⟨?_, ?_, ?_, ?_⟩
  · intro intent cands now fn e h
    unfold optimizationAgent
    rw [h]
  · intro fn e h
    unfold refineItineraryAgent
    rw [h]
  · intro enrich fn e h
    unfold discoveryAgent
    rw [h]
  · intro fn e h
    unfold parseIntentAgent
    rw [h]
    dsimp only
    by_cases hc : (jsIncludes e "Validation Error" || jsIncludes e "JSON") = true
    · rw [if_pos hc]
      exact ⟨_, rfl⟩
    · rw [if_neg hc]
      exact ⟨_, rfl⟩

/-- Witness for C3: with a call that always rejects with "boom", the
Optimization stage returns the fallback, while the Refine stage rejects
with the wrapped retry-exhaustion error. -/
theorem optimization_fallback_policy_witness :
    optimizationAgent sampleIntent sampleDiscovery 42 (fun _ => Except.error "boom")
      = generateFallbackItinerary sampleIntent sampleDiscovery 42
    ∧ refineItineraryAgent (fun _ => Except.error "down")
      = Except.error (highTrafficMessage "RefineItineraryAgent" "down") :=
  ⟨optimization_fallback_policy.1 sampleIntent sampleDiscovery 42
      (fun _ => Except.error "boom") (highTrafficMessage "OptimizationAgent" "boom") rfl,
   optimization_fallback_policy.2.1 (fun _ => Except.error "down")
      (highTrafficMessage "RefineItineraryAgent" "down") rfl⟩

/-- The slot assignment of one fallback day, phrased with `List.get?`:
morning is `activities[(i-1) mod k]`, afternoon is
`activities[(i + k/2) mod k]` when `k > 1`, evening is
`dining[(i-1) mod m]`, with empty slots when the respective list is too
short. -/
theorem fallbackDayPlan_slots (intent : TripIntent) (discovery : DiscoveryResult) (i : Nat) :
    (fallbackDayPlan intent discovery i).day = i
    ∧ (fallbackDayPlan intent discovery i).morning =
        (discovery.activities.get? ((i - 1) % discovery.activities.length)).toList
    ∧ (fallbackDayPlan intent discovery i).afternoon =
        (if 1 < discovery.activities.length then
          (discovery.activities.get?
            ((i + discovery.activities.length / 2) % discovery.activities.length)).toList
        else [])
    ∧ (fallbackDayPlan intent discovery i).evening =
        (discovery.dining.get? ((i - 1) % discovery.dining.length)).toList := by
  refine ⟨rfl, ?_, ?_, ?_⟩
  · show (if h : 0 < discovery.activities.length then
        [discovery.activities.get
          ⟨(i - 1) % discovery.activities.length, Nat.mod_lt _ h⟩]
      else []) = _
    by_cases h : 0 < discovery.activities.length
    · rw [dif_pos h, List.get?_eq_get (Nat.mod_lt _ h)]
      rfl
    · rw [dif_neg h, List.get?_len_le (by omega)]
      rfl
  · show (if h : 1 < discovery.activities.length then
        [discovery.activities.get
          ⟨(i + discovery.activities.length / 2) % discovery.activities.length,
            Nat.mod_lt _ (Nat.lt_of_le_of_lt (Nat.zero_le 1) h)⟩]
      else []) = _
    by_cases h : 1 < discovery.activities.length
    · rw [dif_pos h, if_pos h,
        List.get?_eq_get (Nat.mod_lt _ (Nat.lt_of_le_of_lt (Nat.zero_le 1) h))]
      rfl
    · rw [dif_neg h, if_neg h]
  · show (if h : 0 < discovery.dining.length then
        [discovery.dining.get ⟨(i - 1) % discovery.dining.length, Nat.mod_lt _ h⟩]
      else []) = _
    by_cases h : 0 < discovery.dining.length
    · rw [dif_pos h, List.get?_eq_get (Nat.mod_lt _ h)]
      rfl
    · rw [dif_neg h, List.get?_len_le (by omega)]
      rfl

/-- **C4.** The fallback generator is deterministic: the day-by-day
assignment does not depend on the invocation time (which only enters the
generated id); the result always has `confidenceScore = 0.2` and a
non-empty assumptions list; and it is a single itinerary with
`durationDays` days whose day `i` assigns
morning = `activities[(i-1) mod k]`,
afternoon = `activities[(i + k/2) mod k]` when `k > 1`,
evening = `dining[(i-1) mod m]`, empty when the respective list is
empty. -/
theorem fallback_deterministic (intent : TripIntent) (discovery : DiscoveryResult)
    (now1 now2 : Nat) :
    ((generateFallbackItinerary intent discovery now1).itineraries.map Itinerary.days
      = (generateFallbackItinerary intent discovery now2).itineraries.map Itinerary.days)
    ∧ (generateFallbackItinerary intent discovery now1).confidenceScore = 1 / 5
    ∧ (generateFallbackItinerary intent discovery now1).assumptions ≠ []
    ∧ ∃ itin : Itinerary,
        (generateFallbackItinerary intent discovery now1).itineraries = [itin]
        ∧ itin.days.length = intent.durationDays
        ∧ ∀ i : Nat, 1 ≤ i → i ≤ intent.durationDays →
            ∃ dp : DayPlan, itin.days.get? (i - 1) = some dp
              ∧ dp.day = i
              ∧ dp.morning =
                  (discovery.activities.get?
                    ((i - 1) % discovery.activities.length)).toList
              ∧ dp.afternoon =
                  (if 1 < discovery.activities.length then
                    (discovery.activities.get?
                      ((i + discovery.activities.length / 2)
                        % discovery.activities.length)).toList
                  else [])
              ∧ dp.evening =
                  (discovery.dining.get? ((i - 1) % discovery.dining.length)).toList := by
  refine ⟨rfl, rfl, by simp [generateFallbackItinerary], ?_⟩
  refine ⟨_, rfl, by simp [generateFallbackItinerary], ?_⟩
  intro i h1 hn
  have hlt : i - 1 < intent.durationDays := by omega
  have hget : ((List.range intent.durationDays).map
      (fun j => fallbackDayPlan intent discovery (j + 1))).get? (i - 1)
      = some (fallbackDayPlan intent discovery ((i - 1) + 1)) := by
    rw [List.get?_map, List.get?_range hlt]
    rfl
  have hi : (i - 1) + 1 = i := by omega
  rw [hi] at hget
  obtain ⟨hday, hm, ha, he⟩ := fallbackDayPlan_slots intent discovery i
  exact ⟨fallbackDayPlan intent discovery i, hget, hday, hm, ha, he⟩

/-- Witness for C4 at the sample inputs: the generated itinerary's first
day exists, is day 1, and draws its slots from the sample candidate
lists. -/
theorem fallback_deterministic_witness :
    ∃ itin : Itinerary,
      (generateFallbackItinerary sampleIntent sampleDiscovery 3).itineraries = [itin]
      ∧ ∃ dp : DayPlan, itin.days.get? 0 = some dp ∧ dp.day = 1 := by
  obtain ⟨-, -, -, itin, hitin, -, hall⟩ :=
    fallback_deterministic sampleIntent sampleDiscovery 3 7
  obtain ⟨dp, hdp, hday, -, -, -⟩ := hall 1 (by decide) (by decide)
  exact ⟨itin, hitin, dp, hdp, hday⟩

/-- `shouldRequireConfirmation` is true exactly when the confidence score
is below 0.7 or an assumption was recorded. -/
theorem shouldRequireConfirmation_iff (score : ℚ) (as : List String) :
    shouldRequireConfirmation score as = true ↔ (score < 7 / 10 ∨ as ≠ []) := by
  simp [shouldRequireConfirmation, List.length_pos]

/-- **C8.** After the Intent and Discovery stages the pipeline pauses in
the review state exactly when `confidenceScore < 0.7` or `assumptions` is
non-empty, and auto-advances to the next stage otherwise; in particular a
result with score 0.5 always pauses, and a result with score 0.95 and no
assumptions always auto-advances. -/
theorem confirmation_gate_spec :
    (∀ intent : TripIntent,
        intentGate intent = AgentStatus.REVIEW_INTENT
          ↔ (intent.confidenceScore < 7 / 10 ∨ intent.assumptions ≠ []))
    ∧ (∀ intent : TripIntent,
        intentGate intent = AgentStatus.DISCOVERY
          ↔ ¬(intent.confidenceScore < 7 / 10 ∨ intent.assumptions ≠ []))
    ∧ (∀ d : DiscoveryResult,
        discoveryGate d = AgentStatus.REVIEW_DISCOVERY
          ↔ (d.confidenceScore < 7 / 10 ∨ d.assumptions ≠ []))
    ∧ (∀ d : DiscoveryResult,
        discoveryGate d = AgentStatus.OPTIMIZING
          ↔ ¬(d.confidenceScore < 7 / 10 ∨ d.assumptions ≠ []))
    ∧ (∀ intent : TripIntent, intent.confidenceScore = 1 / 2 →
        intentGate intent = AgentStatus.REVIEW_INTENT)
    ∧ (∀ intent : TripIntent,
        intent.confidenceScore = 19 / 20 → intent.assumptions = [] →
        intentGate intent = AgentStatus.DISCOVERY)
    ∧ (∀ d : DiscoveryResult, d.confidenceScore = 1 / 2 →
        discoveryGate d = AgentStatus.REVIEW_DISCOVERY)
    ∧ (∀ d : DiscoveryResult,
        d.confidenceScore = 19 / 20 → d.assumptions = [] →
        discoveryGate d = AgentStatus.OPTIMIZING) := by
  have hi : ∀ intent : TripIntent,
      intentGate intent = AgentStatus.REVIEW_INTENT
        ↔ (intent.confidenceScore < 7 / 10 ∨ intent.assumptions ≠ []) := by
    intro intent
    unfold intentGate
    rw [← shouldRequireConfirmation_iff intent.confidenceScore intent.assumptions]
    by_cases h : shouldRequireConfirmation intent.confidenceScore intent.assumptions = true
    · rw [if_pos h]
      simp [h]
    · rw [if_neg h]
      simp [h]
  have hi2 : ∀ intent : TripIntent,
      intentGate intent = AgentStatus.DISCOVERY
        ↔ ¬(intent.confidenceScore < 7 / 10 ∨ intent.assumptions ≠ []) := by
    intro intent
    rw [← shouldRequireConfirmation_iff intent.confidenceScore intent.assumptions]
    unfold intentGate
    by_cases h : shouldRequireConfirmation intent.confidenceScore intent.assumptions = true
    · rw [if_pos h]
      simp [h]
    · rw [if_neg h]
      simp [h]
  have hd : ∀ d : DiscoveryResult,
      discoveryGate d = AgentStatus.REVIEW_DISCOVERY
        ↔ (d.confidenceScore < 7 / 10 ∨ d.assumptions ≠ []) := by
    intro d
    unfold discoveryGate
    rw [← shouldRequireConfirmation_iff d.confidenceScore d.assumptions]
    by_cases h : shouldRequireConfirmation d.confidenceScore d.assumptions = true
    · rw [if_pos h]
      simp [h]
    · rw [if_neg h]
      simp [h]
  have hd2 : ∀ d : DiscoveryResult,
      discoveryGate d = AgentStatus.OPTIMIZING
        ↔ ¬(d.confidenceScore < 7 / 10 ∨ d.assumptions ≠ []) := by
    intro d
    rw [← shouldRequireConfirmation_iff d.confidenceScore d.assumptions]
    unfold discoveryGate
    by_cases h : shouldRequireConfirmation d.confidenceScore d.assumptions = true
    · rw [if_pos h]
      simp [h]
    · rw [if_neg h]
      simp [h]
  refine ⟨hi, hi2, hd, hd2, ?_, ?_, ?_, ?_⟩
  · intro intent hs
    exact (hi intent).mpr (Or.inl (by rw [hs]; norm_num))
  · intro intent hs ha
    refine (hi2 intent).mpr ?_
    rw [hs, ha]
    norm_num
  · intro d hs
    exact (hd d).mpr (Or.inl (by rw [hs]; norm_num))
  · intro d hs ha
    refine (hd2 d).mpr ?_
    rw [hs, ha]
    norm_num

/-- Witness for C8 at concrete stage results: score 0.5 pauses both
gates; score 0.95 with no assumptions auto-advances both gates. -/
theorem confirmation_gate_spec_witness :
    intentGate intentHalf = AgentStatus.REVIEW_INTENT
    ∧ intentGate intentHigh = AgentStatus.DISCOVERY
    ∧ discoveryGate discoveryHalf = AgentStatus.REVIEW_DISCOVERY
    ∧ discoveryGate discoveryHigh = AgentStatus.OPTIMIZING :=
  ⟨confirmation_gate_spec.2.2.2.2.1 intentHalf rfl,
   confirmation_gate_spec.2.2.2.2.2.1 intentHigh rfl rfl,
   confirmation_gate_spec.2.2.2.2.2.2.1 discoveryHalf rfl,
   confirmation_gate_spec.2.2.2.2.2.2.2 discoveryHigh rfl rfl⟩

end VibeTrip
